import Mathlib

/-!
Verification of the llm-observability service against its design document.

This file is a shallow embedding of src/main.py.  Modelling conventions:

* Python floats are embedded as exact rationals (`ℚ`); a float literal such
  as `0.4` denotes the rational `4/10`.
* The external model capability and the two telemetry sinks are embedded as
  explicit outcome parameters (`Except`/`Bool` fields of `ChatArgs`); the
  side effects of one request are collected in an explicit `Event` trace.
* Clock readings (`time.time()`) are explicit rational parameters, read in
  program order; monotonicity of the clock is a hypothesis where needed.
-/

set_option maxRecDepth 4000

namespace LLMObs

/-- Substring containment on character lists, the Python operator `in` on
`str`: the needle occurs contiguously somewhere in the haystack. -/
def isSubstr (needle hay : List Char) : Bool :=
  match hay with
  | [] => needle.isEmpty
  | c :: t => needle.isPrefixOf (c :: t) || isSubstr needle t

/-- Hedging vocabulary of `calculate_hallucination_risk` (src/main.py:59-60). -/
def hedging_words : List String :=
  ["might", "possibly", "perhaps", "maybe", "i think",
   "could be", "it seems", "likely", "probably"]

/-- Python `str.lower` on the character list (ASCII case folding suffices for
the fixed hedging vocabulary). -/
def toLowerList (cs : List Char) : List Char :=
  cs.map Char.toLower

/-- Number of hedging phrases contained in the lower-cased response text
(src/main.py:61-62); each phrase contributes at most one. -/
def hedging_count (response_text : String) : Nat :=
  (hedging_words.filter fun w => isSubstr w.data (toLowerList response_text.data)).length

/-- Number of maximal whitespace-free runs in a character list, carrying the
flag "the previous character belonged to a word". -/
def wordCountAux (inWord : Bool) : List Char → Nat
  | [] => 0
  | c :: t =>
    if c.isWhitespace then wordCountAux false t
    else (if inWord then 0 else 1) + wordCountAux true t

/-- Python `len(s.split())`: number of maximal whitespace-free tokens
(src/main.py:67-68). -/
def wordCount (s : String) : Nat :=
  wordCountAux false s.data

/-- The verbosity quotient `response_length / max(prompt_length, 1)`
(src/main.py:69). -/
def verbosityQuot (response_text prompt : String) : ℚ :=
  (wordCount response_text : ℚ) / (max (wordCount prompt) 1 : ℚ)

/-- `calculate_hallucination_risk` (src/main.py:47-73): weighted sum of the
confidence risk (weight 0.4), the capped hedging risk (weight 0.3) and the
capped verbosity risk (weight 0.3), finally clamped to at most 1. -/
def calculate_hallucination_risk (response_text prompt : String) (confidence : ℚ) : ℚ :=
  let confidence_risk := 1 - confidence
  let hedging_risk := min ((hedging_count response_text : ℚ) / 5) 1
  let verbosity_risk := min (verbosityQuot response_text prompt / 50) 1
  min (confidence_risk * (4/10) + hedging_risk * (3/10) + verbosity_risk * (3/10)) 1

/-- The same scorer viewed as a function of confidence, hedging count and
verbosity ratio, the shape `score(c,h,v)` in which the spec states its
testable properties. -/
def scoreCHV (c : ℚ) (h : Nat) (v : ℚ) : ℚ :=
  min ((1 - c) * (4/10) + min ((h : ℚ) / 5) 1 * (3/10) + min (v / 50) 1 * (3/10)) 1

/-- Fragment of the confidence regex matching at the start of the input: a
dot followed by one or more decimal digits, taken greedily. -/
def dotDigits : List Char → Option (List Char)
  | '.' :: rest =>
    let ds := rest.takeWhile Char.isDigit
    if ds.isEmpty then none else some ('.' :: ds)
  | _ => none

/-- First alternative of the confidence pattern: an optional leading 0, then
a dot and digits; the optional 0 backtracks as in Python re. -/
def altOptZeroDotDigits (cs : List Char) : Option (List Char) :=
  match cs with
  | '0' :: rest =>
    match dotDigits rest with
    | some m => some ('0' :: m)
    | none => dotDigits cs
  | _ => dotDigits cs

/-- Second alternative of the confidence pattern: the literal text 1.0 . -/
def altOneDotZero (cs : List Char) : Option (List Char) :=
  match cs with
  | '1' :: '.' :: '0' :: _ => some ['1', '.', '0']
  | _ => none

/-- All four alternatives of the confidence pattern tried in order at one
position, as Python alternation does. -/
def matchConfAt (cs : List Char) : Option (List Char) :=
  (altOptZeroDotDigits cs).orElse fun _ =>
  (altOneDotZero cs).orElse fun _ =>
  match cs with
  | '0' :: _ => some ['0']
  | '1' :: _ => some ['1']
  | _ => none

/-- Python re.search of the confidence pattern (src/main.py:92): the match
at the leftmost position where some alternative matches. -/
def reSearchConf : List Char → Option (List Char)
  | [] => none
  | c :: t =>
    match matchConfAt (c :: t) with
    | some m => some m
    | none => reSearchConf t

/-- Numeric value of a run of decimal digit characters. -/
def digitsVal (ds : List Char) : Nat :=
  ds.foldl (fun a c => 10 * a + (c.toNat - 48)) 0

/-- Powers of ten, as an exact rational. -/
def pow10 : Nat → ℚ
  | 0 => 1
  | n + 1 => 10 * pow10 n

/-- Python float() on a token matched by the confidence pattern, embedded
exactly: an optional integer part, then an optional dot-separated fractional
part. -/
def parseDec (cs : List Char) : ℚ :=
  let intPart := cs.takeWhile Char.isDigit
  let rest := cs.drop intPart.length
  match rest with
  | '.' :: frac => (digitsVal intPart : ℚ) + (digitsVal frac : ℚ) / pow10 frac.length
  | _ => (digitsVal intPart : ℚ)

/-- Python str.strip: drop whitespace from both ends. -/
def stripWS (cs : List Char) : List Char :=
  ((cs.dropWhile Char.isWhitespace).reverse.dropWhile Char.isWhitespace).reverse

/-- `get_self_confidence` (src/main.py:76-98).  The secondary model call is
embedded by its outcome: an exception (`.error`) or the raw reply text
(`.ok`).  The reply is stripped, the first match of the numeric pattern is
converted by float(), and any failure yields the neutral default 0.5. -/
def get_self_confidence (reply : Except String String) : ℚ :=
  match reply with
  | .error _ => 1/2
  | .ok text =>
    match reSearchConf (stripWS text.data) with
    | some tok => parseDec tok
    | none => 1/2

/-! SHA-256.  hash_prompt (src/main.py:42-44) truncates the hex digest of
hashlib.sha256; the hash itself is library code outside this repository, so
it is modelled from its specification (FIPS 180-4), which the spec invokes
with the words "cryptographic digest". -/

/-- Truncation of a natural number to a 32-bit word. -/
def w32 (n : Nat) : Nat := n % 4294967296

/-- Rotation of a 32-bit word right by n bits. -/
def rotr32 (n x : Nat) : Nat := w32 ((x >>> n) ||| (x <<< (32 - n)))

/-- Choice function of the SHA-256 round. -/
def shaCh (x y z : Nat) : Nat := (x &&& y) ^^^ ((x ^^^ 4294967295) &&& z)

/-- Majority function of the SHA-256 round. -/
def shaMaj (x y z : Nat) : Nat := (x &&& y) ^^^ (x &&& z) ^^^ (y &&& z)

/-- Upper-case sigma-0 of SHA-256. -/
def bigSigma0 (x : Nat) : Nat := rotr32 2 x ^^^ rotr32 13 x ^^^ rotr32 22 x

/-- Upper-case sigma-1 of SHA-256. -/
def bigSigma1 (x : Nat) : Nat := rotr32 6 x ^^^ rotr32 11 x ^^^ rotr32 25 x

/-- Lower-case sigma-0 of SHA-256. -/
def smallSigma0 (x : Nat) : Nat := rotr32 7 x ^^^ rotr32 18 x ^^^ (x >>> 3)

/-- Lower-case sigma-1 of SHA-256. -/
def smallSigma1 (x : Nat) : Nat := rotr32 17 x ^^^ rotr32 19 x ^^^ (x >>> 10)

/-- The 64 SHA-256 round constants, written in decimal. -/
def sha256K : List Nat :=
  [1116352408, 1899447441, 3049323471, 3921009573, 961987163,
   1508970993, 2453635748, 2870763221, 3624381080, 310598401,
   607225278, 1426881987, 1925078388, 2162078206, 2614888103,
   3248222580, 3835390401, 4022224774, 264347078, 604807628,
   770255983, 1249150122, 1555081692, 1996064986, 2554220882,
   2821834349, 2952996808, 3210313671, 3336571891, 3584528711,
   113926993, 338241895, 666307205, 773529912, 1294757372,
   1396182291, 1695183700, 1986661051, 2177026350, 2456956037,
   2730485921, 2820302411, 3259730800, 3345764771, 3516065817,
   3600352804, 4094571909, 275423344, 430227734, 506948616,
   659060556, 883997877, 958139571, 1322822218, 1537002063,
   1747873779, 1955562222, 2024104815, 2227730452, 2361852424,
   2428436474, 2756734187, 3204031479, 3329325298]

/-- Working state of the SHA-256 compression, eight 32-bit words. -/
structure Sha256State where
  a : Nat
  b : Nat
  c : Nat
  d : Nat
  e : Nat
  f : Nat
  g : Nat
  h : Nat
deriving DecidableEq

/-- The SHA-256 initial hash value. -/
def sha256IV : Sha256State :=
  ⟨1779033703, 3144134277, 1013904242, 2773480762,
   1359893119, 2600822924, 528734635, 1541459225⟩

/-- Extension of the message schedule; `acc` is the schedule so far in
reverse order, `k` the number of entries still to produce. -/
def extendSchedule : Nat → List Nat → List Nat
  | 0, acc => acc
  | k + 1, acc =>
    let w := w32 (smallSigma1 (acc.getD 1 0) + acc.getD 6 0 +
      smallSigma0 (acc.getD 14 0) + acc.getD 15 0)
    extendSchedule k (w :: acc)

/-- The 64-entry message schedule of one 16-word block. -/
def schedule (block : List Nat) : List Nat :=
  (extendSchedule 48 block.reverse).reverse

/-- One SHA-256 round; `kw` is the pair of round constant and schedule
word. -/
def sha256Round (s : Sha256State) (kw : Nat × Nat) : Sha256State :=
  let t1 := w32 (s.h + bigSigma1 s.e + shaCh s.e s.f s.g + kw.1 + kw.2)
  let t2 := w32 (bigSigma0 s.a + shaMaj s.a s.b s.c)
  ⟨w32 (t1 + t2), s.a, s.b, s.c, w32 (s.d + t1), s.e, s.f, s.g⟩

/-- Compression of one 16-word block into the state. -/
def compressBlock (s : Sha256State) (block : List Nat) : Sha256State :=
  let f := (sha256K.zip (schedule block)).foldl sha256Round s
  ⟨w32 (s.a + f.a), w32 (s.b + f.b), w32 (s.c + f.c), w32 (s.d + f.d),
   w32 (s.e + f.e), w32 (s.f + f.f), w32 (s.g + f.g), w32 (s.h + f.h)⟩

/-- Big-endian bytes of a natural number, fixed width `w`. -/
def beBytes : Nat → Nat → List Nat
  | 0, _ => []
  | w + 1, n => (n >>> (8 * w)) % 256 :: beBytes w n

/-- SHA-256 padding: append the 0x80 byte, zeros up to 56 mod 64, and the
bit length as eight big-endian bytes. -/
def sha256Pad (msg : List Nat) : List Nat :=
  msg ++ 128 :: (List.replicate ((119 - msg.length % 64) % 64) 0 ++
    beBytes 8 (8 * msg.length))

/-- Splitting a list into chunks of `n` elements, with an explicit fuel that
makes the recursion structural; `fuel ≥ l.length` and `n ≥ 1` give the usual
chunking. -/
def chunksFuel (n : Nat) : Nat → List Nat → List (List Nat)
  | 0, _ => []
  | _, [] => []
  | fuel + 1, x :: xs => ((x :: xs).take n) :: chunksFuel n fuel ((x :: xs).drop n)

/-- The big-endian 32-bit words of one 64-byte block. -/
def blockWords (block : List Nat) : List Nat :=
  (chunksFuel 4 block.length block).map fun bs => bs.foldl (fun acc b => 256 * acc + b) 0

/-- The SHA-256 digest state of a byte message. -/
def sha256Digest (msg : List Nat) : Sha256State :=
  ((chunksFuel 64 (sha256Pad msg).length (sha256Pad msg)).map blockWords).foldl
    compressBlock sha256IV

/-- Big-endian bytes of one 32-bit word. -/
def wordBytes (w : Nat) : List Nat :=
  [(w >>> 24) % 256, (w >>> 16) % 256, (w >>> 8) % 256, w % 256]

/-- The 32 digest bytes of a final state. -/
def stateBytes (s : Sha256State) : List Nat :=
  ([s.a, s.b, s.c, s.d, s.e, s.f, s.g, s.h].map wordBytes).flatten

/-- The sixteen lowercase hexadecimal digit characters, in value order. -/
def hexDigitChars : List Char :=
  "0123456789abcdef".data

/-- Hexadecimal character of a value modulo 16. -/
def hexChar (n : Nat) : Char := hexDigitChars.getD (n % 16) '0'

/-- The two hex characters of one byte. -/
def byteHex (b : Nat) : List Char := [hexChar (b / 16), hexChar b]

/-- Characters of hashlib's hexdigest() of a byte message. -/
def sha256HexChars (msg : List Nat) : List Char :=
  ((stateBytes (sha256Digest msg)).map byteHex).flatten

/-- Python str.encode(): the UTF-8 bytes of a string. -/
def utf8Bytes (s : String) : List Nat :=
  s.toUTF8.toList.map UInt8.toNat

/-- `hash_prompt` (src/main.py:42-44): first 16 characters of the SHA-256
hex digest of the UTF-8 encoded prompt. -/
def hash_prompt (p : String) : String :=
  String.mk ((sha256HexChars (utf8Bytes p)).take 16)

/-! Configuration constants of src/main.py:24-30 at their defaults. -/

def MODEL_NAME : String := "gemini-2.5-flash"

def SERVICE_NAME : String := "llm-observability-service"

def ENVIRONMENT : String := "dev"

/-- Python round(x, 2), embedded as exact rounding to a multiple of 1/100
(ties are rounded up rather than to even; the two agree off ties). -/
def round2 (x : ℚ) : ℚ :=
  ((round (x * 100) : ℤ) : ℚ) / 100

/-- Python round(x, 3), embedded as exact rounding to a multiple of 1/1000. -/
def round3 (x : ℚ) : ℚ :=
  ((round (x * 1000) : ℤ) : ℚ) / 1000

/-- The metrics_data dict assembled in chat (src/main.py:224-231). -/
structure MetricsData where
  model_name : String
  latency_ms : ℚ
  self_confidence : ℚ
  hallucination_risk : ℚ
  answer_length : Nat
  token_count : Nat
deriving DecidableEq

/-- The log_data dict of a successful request (src/main.py:233-242). -/
structure LogData where
  request_id : String
  prompt_hash : String
  model_name : String
  latency_ms : ℚ
  hallucination_risk : ℚ
  self_confidence : ℚ
  answer_length : Nat
  status : String
deriving DecidableEq

/-- The error_data dict of a failed request (src/main.py:264-269). -/
structure ErrorLogData where
  request_id : String
  error : String
  latency_ms : ℚ
  status : String
deriving DecidableEq

/-- One structured log entry handed to the log sink. -/
inductive LogEntry where
  | success (ld : LogData)
  | failure (ed : ErrorLogData)
deriving DecidableEq

/-- One Datadog metric series as send_metrics_to_datadog builds it
(src/main.py:114-142): metric name, point value, resource name and tags.
The point timestamp is an extra clock reading not modelled here. -/
structure MetricSeriesM where
  metric : String
  value : ℚ
  resource_name : String
  tags : List String
deriving DecidableEq

/-- The five series submitted for one metrics_data dict
(src/main.py:108-142). -/
def metricsSeriesOf (md : MetricsData) : List MetricSeriesM :=
  let tags := ["model_name:" ++ md.model_name, "service:" ++ SERVICE_NAME,
    "env:" ++ ENVIRONMENT]
  [⟨"llm.request.latency_ms", md.latency_ms, SERVICE_NAME, tags⟩,
   ⟨"llm.self_confidence", md.self_confidence, SERVICE_NAME, tags⟩,
   ⟨"llm.hallucination_risk", md.hallucination_risk, SERVICE_NAME, tags⟩,
   ⟨"llm.answer_length", (md.answer_length : ℚ), SERVICE_NAME, tags⟩,
   ⟨"llm.token.count", (md.token_count : ℚ), SERVICE_NAME, tags⟩]

/-- Every string occurring in the submitted metric payload of one
metrics_data dict. -/
def seriesStrings (md : MetricsData) : List String :=
  ((metricsSeriesOf md).map fun s => s.metric :: s.resource_name :: s.tags).flatten

/-- Observable effects of one request, in program order: calls to the model
capability, successful deliveries to the two sinks, the error-counter
metric, and operational log lines printed when a sink raises. -/
inductive Event where
  | primaryCall (prompt : String)
  | confCall (prompt : String)
  | metricsEmit (md : MetricsData)
  | logsEmit (entry : LogEntry)
  | errorMetricEmit
  | opLog (msg : String)
deriving DecidableEq

/-- `send_metrics_to_datadog` (src/main.py:101-148): the submission either
reaches the sink or raises; a raise is caught and printed, never propagated.
The sink outcome is the `fail` parameter. -/
def send_metrics_to_datadog (fail : Bool) (md : MetricsData) : List Event :=
  if fail then [Event.opLog "Error sending metrics to Datadog"]
  else [Event.metricsEmit md]

/-- `send_logs_to_datadog` (src/main.py:152-180): same best-effort shape as
the metrics dispatch. -/
def send_logs_to_datadog (fail : Bool) (entry : LogEntry) : List Event :=
  if fail then [Event.opLog "Error sending logs to Datadog"]
  else [Event.logsEmit entry]

/-- The follow-up instruction built by get_self_confidence
(src/main.py:81-86). -/
def confidence_prompt (original_prompt original_response : String) : String :=
  "You previously answered this question:\nQuestion: " ++ original_prompt ++
  "\nYour answer: " ++ original_response ++
  "\n\nOn a scale from 0.0 to 1.0, how confident are you that your answer is accurate and complete?\nRespond with ONLY a number between 0.0 and 1.0, nothing else."

/-- Inputs and environment of one run of the chat handler
(src/main.py:189-288).  `body` is the outcome of request.get_json() plus
the prompt extraction data.get with default empty string: `.error e` when
either raises (absent body, malformed JSON, non-object JSON), `.ok prompt`
otherwise, with a missing prompt key defaulted to the empty string.
`gen` is the outcome of the primary generation call (response text and
token count).  `confReply` is the outcome of the secondary confidence call.
The three `Fail` flags say whether the corresponding sink raises.  The `t`
fields are the clock readings in program order: request start, generation
start, generation end, response construction, and the error-path reading. -/
structure ChatArgs where
  request_id : String
  body : Except String String
  gen : Except String (String × Nat)
  confReply : Except String String
  metricsFail : Bool
  logsFail : Bool
  errMetricFail : Bool
  tStart : ℚ
  tLlmStart : ℚ
  tLlmEnd : ℚ
  tEnd : ℚ
  tErr : ℚ

/-- Caller-visible response envelope of the chat handler. -/
inductive ChatResponse where
  | success (request_id response : String)
      (latency_ms confidence hallucination_risk : ℚ) (model : String)
  | badRequest (err : String)
  | serverError (err request_id : String)
deriving DecidableEq

/-- Error path of the chat handler (src/main.py:261-288): build error_data,
dispatch it to the log sink, then submit the error counter metric inside its
own try whose bare except swallows silently. -/
def chatError (a : ChatArgs) (e : String) (evs : List Event) :
    ChatResponse × Nat × List Event :=
  let ed : ErrorLogData :=
    ⟨a.request_id, e, (a.tErr - a.tStart) * 1000, "error"⟩
  let ev1 := send_logs_to_datadog a.logsFail (LogEntry.failure ed)
  let ev2 := if a.errMetricFail then [] else [Event.errorMetricEmit]
  (ChatResponse.serverError e a.request_id, 500, evs ++ ev1 ++ ev2)

/-- The chat handler (src/main.py:189-288), returning the response envelope,
the HTTP status code, and the trace of observable effects. -/
def chat (a : ChatArgs) : ChatResponse × Nat × List Event :=
  match a.body with
  | .error e => chatError a e []
  | .ok prompt =>
    if prompt = "" then (ChatResponse.badRequest "prompt is required", 400, [])
    else
      match a.gen with
      | .error e => chatError a e [Event.primaryCall prompt]
      | .ok (response_text, token_count) =>
        let confidence_score := get_self_confidence a.confReply
        let hallucination_risk :=
          calculate_hallucination_risk response_text prompt confidence_score
        let latency_ms := (a.tLlmEnd - a.tLlmStart) * 1000
        let answer_length := wordCount response_text
        let md : MetricsData :=
          ⟨MODEL_NAME, latency_ms, confidence_score, hallucination_risk,
           answer_length, token_count⟩
        let ld : LogData :=
          ⟨a.request_id, hash_prompt prompt, MODEL_NAME, latency_ms,
           hallucination_risk, confidence_score, answer_length, "success"⟩
        let ev1 := send_metrics_to_datadog a.metricsFail md
        let ev2 := send_logs_to_datadog a.logsFail (LogEntry.success ld)
        (ChatResponse.success a.request_id response_text
            (round2 ((a.tEnd - a.tStart) * 1000)) (round3 confidence_score)
            (round3 hallucination_risk) MODEL_NAME,
         200,
         Event.primaryCall prompt ::
           Event.confCall (confidence_prompt prompt response_text) ::
           (ev1 ++ ev2))

/-- Request id carried by a response envelope, when it has one. -/
def ridOf : ChatResponse → Option String
  | .success rid _ _ _ _ _ => some rid
  | .badRequest _ => none
  | .serverError _ rid => some rid

/-- Request id carried by a log entry. -/
def logEntryRid : LogEntry → String
  | .success ld => ld.request_id
  | .failure ed => ed.request_id

/-- The log entries delivered to the log sink during a trace. -/
def logEntriesOf (evs : List Event) : List LogEntry :=
  evs.filterMap fun ev =>
    match ev with
    | .logsEmit e => some e
    | _ => none

/-- The metrics_data dicts delivered to the metrics sink during a trace. -/
def metricsEmitted (evs : List Event) : List MetricsData :=
  evs.filterMap fun ev =>
    match ev with
    | .metricsEmit md => some md
    | _ => none

/-- Whether an event is a call to the model capability. -/
def isModelCall : Event → Bool
  | .primaryCall _ => true
  | .confCall _ => true
  | _ => false

/-- Envelope latency of a success response, 0 otherwise. -/
def envLatencyOf : ChatResponse → ℚ
  | .success _ _ lat _ _ _ => lat
  | _ => 0

/-- Index of a character in the hexadecimal alphabet, as an element of
Fin 16; characters outside the alphabet land at an arbitrary index. -/
def charIdx (c : Char) : Fin 16 :=
  ⟨(hexDigitChars.indexOf c) % 16, Nat.mod_lt _ (by norm_num)⟩

/-- The digest of a prompt read back as sixteen hexadecimal values. -/
def hashFin (p : String) : Fin 16 → Fin 16 := fun i =>
  charIdx ((hash_prompt p).data.getD i '0')

/-- A concrete run with an empty prompt. -/
def emptyArgs : ChatArgs :=
  ⟨"rid-empty", Except.ok "", Except.ok ("", 0), Except.ok "",
   false, false, false, 0, 0, 0, 0, 0⟩

/-- A concrete run whose body extraction raises. -/
def badBodyArgs : ChatArgs :=
  ⟨"rid-bad", Except.error "400 Bad Request: failed to decode JSON object",
   Except.ok ("", 0), Except.ok "", false, false, false, 0, 0, 0, 0, 2⟩

/-- A concrete successful run with a uuid-shaped request id. -/
def cexArgs : ChatArgs :=
  ⟨"9f3c2b7e-5a41-4d08-b6c9-1e2d3f4a5b6c", Except.ok "hello there",
   Except.ok ("hi", 2), Except.ok "0.9", false, false, false, 0, 0, 0, 0, 0⟩

/-- A concrete successful run whose generation span is 1.0149 ms and equal to
the full request span. -/
def lateArgs : ChatArgs :=
  ⟨"rid-late", Except.ok "hi", Except.ok ("ok", 3), Except.ok "0.9",
   false, false, false, 0, 0, 10149/10000000, 10149/10000000, 0⟩

/-- The metrics_data dict emitted by the lateArgs run. -/
def lateMd : MetricsData :=
  ⟨MODEL_NAME, 10149/10000, 9/10, 23/500, 1, 3⟩

/-- A concrete successful run with strictly increasing clock readings. -/
def okArgs : ChatArgs :=
  ⟨"rid-ok", Except.ok "hi", Except.ok ("fine", 4), Except.ok "0.9",
   false, false, false, 0, 1, 3, 7, 0⟩

/-! Theorems. -/

/-- Zeta-reduced form of the scorer: it is literally scoreCHV applied to the
hedging count and the verbosity quotient of the two texts. -/
theorem calc_risk_eq (r p : String) (c : ℚ) :
    calculate_hallucination_risk r p c
      = scoreCHV c (hedging_count r) (verbosityQuot r p) := rfl

/-- Nonnegativity of the verbosity quotient. -/
theorem verbosityQuot_nonneg (r p : String) : 0 ≤ verbosityQuot r p := by
  unfold verbosityQuot
  positivity

/-- C1: for every response text, every prompt and every confidence c in
[0,1], calculate_hallucination_risk returns a value in [0,1] (a rational,
hence finite); when all three sub-risks are at their maximum (c = 0, at
least 5 hedging phrases matched, verbosity ratio at least 50) the score is
exactly 1, and when c = 1, no hedging phrase matches and the response is
empty, the score is exactly 0. -/
theorem claim1_risk_unit_interval_boundaries (response prompt : String) (c : ℚ)
    (hc0 : 0 ≤ c) (hc1 : c ≤ 1) :
    (0 ≤ calculate_hallucination_risk response prompt c
      ∧ calculate_hallucination_risk response prompt c ≤ 1)
    ∧ (c = 0 → 5 ≤ hedging_count response → 50 ≤ verbosityQuot response prompt →
        calculate_hallucination_risk response prompt c = 1)
    ∧ (c = 1 → hedging_count response = 0 → response = "" →
        calculate_hallucination_risk response prompt c = 0) := by
  rw [calc_risk_eq]
  refine ⟨⟨?_, min_le_right _ _⟩, ?_, ?_⟩
  · unfold scoreCHV
    have t1 : (0:ℚ) ≤ (1 - c) * (4/10) := mul_nonneg (by linarith) (by norm_num)
    have t2 : (0:ℚ) ≤ min ((hedging_count response : ℚ)/5) 1 * (3/10) :=
      mul_nonneg (le_min (div_nonneg (Nat.cast_nonneg _) (by norm_num)) zero_le_one)
        (by norm_num)
    have t3 : (0:ℚ) ≤ min (verbosityQuot response prompt / 50) 1 * (3/10) :=
      mul_nonneg (le_min (div_nonneg (verbosityQuot_nonneg _ _) (by norm_num)) zero_le_one)
        (by norm_num)
    exact le_min (by linarith) zero_le_one
  · intro h0 h5 h50
    subst h0
    unfold scoreCHV
    have e1 : min ((hedging_count response : ℚ)/5) 1 = 1 := by
      apply min_eq_right
      rw [le_div_iff₀ (by norm_num : (0:ℚ) < 5)]
      have : (5:ℚ) ≤ (hedging_count response : ℚ) := by exact_mod_cast h5
      linarith
    have e2 : min (verbosityQuot response prompt / 50) 1 = 1 := by
      apply min_eq_right
      rw [le_div_iff₀ (by norm_num : (0:ℚ) < 50)]
      linarith
    rw [e1, e2]
    norm_num
  · intro h1 hhc hresp
    subst h1
    subst hresp
    unfold scoreCHV
    rw [hhc]
    have e2 : verbosityQuot "" prompt = 0 := by
      unfold verbosityQuot
      norm_num [wordCount, wordCountAux]
    rw [e2]
    norm_num

/-- Witness for C1 at a concrete input. -/
theorem claim1_witness :
    (0 ≤ calculate_hallucination_risk "it seems fine" "why" 0
      ∧ calculate_hallucination_risk "it seems fine" "why" 0 ≤ 1)
    ∧ ((0:ℚ) = 0 → 5 ≤ hedging_count "it seems fine" →
        50 ≤ verbosityQuot "it seems fine" "why" →
        calculate_hallucination_risk "it seems fine" "why" 0 = 1)
    ∧ ((0:ℚ) = 1 → hedging_count "it seems fine" = 0 → "it seems fine" = "" →
        calculate_hallucination_risk "it seems fine" "why" 0 = 0) :=
  claim1_risk_unit_interval_boundaries "it seems fine" "why" 0 le_rfl zero_le_one

/-- C2: the scorer factors through score(c,h,v), and that function is
monotone non-decreasing as confidence decreases, as the hedging count
increases, and as the verbosity ratio increases, the other inputs held
fixed. -/
theorem claim2_risk_monotone :
    (∀ (r p : String) (c : ℚ), calculate_hallucination_risk r p c
      = scoreCHV c (hedging_count r) (verbosityQuot r p))
    ∧ (∀ (r p : String) (c₁ c₂ : ℚ), c₁ ≤ c₂ →
        calculate_hallucination_risk r p c₂ ≤ calculate_hallucination_risk r p c₁)
    ∧ (∀ (c : ℚ) (h₁ h₂ : Nat) (v : ℚ), h₁ ≤ h₂ → scoreCHV c h₁ v ≤ scoreCHV c h₂ v)
    ∧ (∀ (c : ℚ) (h : Nat) (v₁ v₂ : ℚ), v₁ ≤ v₂ → scoreCHV c h v₁ ≤ scoreCHV c h v₂) := by
  refine ⟨calc_risk_eq, ?_, ?_, ?_⟩
  · intro r p c₁ c₂ hc
    rw [calc_risk_eq, calc_risk_eq]
    unfold scoreCHV
    gcongr
  · intro c h₁ h₂ v hh
    unfold scoreCHV
    gcongr
  · intro c h v₁ v₂ hv
    unfold scoreCHV
    gcongr

/-- Witness for C2 at concrete inputs. -/
theorem claim2_witness :
    calculate_hallucination_risk "maybe" "q" 0
      = scoreCHV 0 (hedging_count "maybe") (verbosityQuot "maybe" "q")
    ∧ calculate_hallucination_risk "maybe" "q" 1 ≤ calculate_hallucination_risk "maybe" "q" 0
    ∧ scoreCHV (1/2) 1 3 ≤ scoreCHV (1/2) 4 3
    ∧ scoreCHV (1/2) 1 3 ≤ scoreCHV (1/2) 1 7 :=
  ⟨claim2_risk_monotone.1 "maybe" "q" 0,
   claim2_risk_monotone.2.1 "maybe" "q" 0 1 zero_le_one,
   claim2_risk_monotone.2.2.1 (1/2) 1 4 3 (by norm_num),
   claim2_risk_monotone.2.2.2 (1/2) 1 3 7 (by norm_num)⟩

unseal Rat.mul Rat.inv Rat.add Rat.sub in
/-- C3: get_self_confidence returns the float value of the first numeric
token matched in the reply, and the neutral default 0.5 both when no token
matches and when the secondary call raises, never propagating an error. -/
theorem claim3_confidence_parsing :
    get_self_confidence (Except.ok "0.8") = 8/10
    ∧ get_self_confidence (Except.ok "I\x27d say about 0.65 confident") = 65/100
    ∧ get_self_confidence (Except.ok "very confident") = 1/2
    ∧ (∀ e : String, get_self_confidence (Except.error e) = 1/2)
    ∧ (∀ text tok, reSearchConf (stripWS text.data) = some tok →
        get_self_confidence (Except.ok text) = parseDec tok) := by
  refine ⟨by decide, by decide, by decide, fun e => rfl, ?_⟩
  intro text tok hm
  show (match reSearchConf (stripWS text.data) with
        | some tok => parseDec tok
        | none => (1:ℚ)/2) = parseDec tok
  rw [hm]

/-- Witness for C3 at a concrete reply with a matched token. -/
theorem claim3_witness :
    get_self_confidence (Except.ok "0.8") = 8/10
    ∧ get_self_confidence (Except.ok "0.8") = parseDec ['0', '.', '8'] :=
  ⟨claim3_confidence_parsing.1,
   claim3_confidence_parsing.2.2.2.2 "0.8" ['0', '.', '8'] (by decide)⟩

unseal Rat.mul Rat.inv Rat.add Rat.sub in
/-- C6 counterexample: a completion matching exactly 5 distinct hedging
phrases with confidence 0.3 but a short response relative to the prompt has
risk 0.583, not above 0.7; the claim omits the verbosity condition. -/
theorem claim6_counterexample :
    5 ≤ hedging_count "might possibly perhaps maybe likely"
    ∧ ¬ (7/10 < calculate_hallucination_risk "might possibly perhaps maybe likely"
        "one two three four five six seven eight nine ten" (3/10)) := by
  decide

/-- C6 amended: with at least 5 hedging phrases matched, confidence 0.3 and
verbosity ratio above 20, the risk exceeds 0.7. -/
theorem claim6_amended_high_risk (r p : String) (h5 : 5 ≤ hedging_count r)
    (hv : 20 < verbosityQuot r p) :
    7/10 < calculate_hallucination_risk r p (3/10) := by
  rw [calc_risk_eq]
  unfold scoreCHV
  have e1 : min ((hedging_count r : ℚ)/5) 1 = 1 := by
    apply min_eq_right
    rw [le_div_iff₀ (by norm_num : (0:ℚ) < 5)]
    have : (5:ℚ) ≤ (hedging_count r : ℚ) := by exact_mod_cast h5
    linarith
  rw [e1]
  have e2 : (2:ℚ)/5 < min (verbosityQuot r p / 50) 1 := by
    rw [lt_min_iff]
    constructor
    · rw [div_lt_div_iff₀ (by norm_num) (by norm_num)]
      linarith
    · norm_num
  apply lt_min
  · linarith
  · norm_num

unseal Rat.mul Rat.inv Rat.add Rat.sub in
/-- Witness for the amended C6: five hedging phrases followed by 100 filler
words against a five-word prompt. -/
theorem claim6_witness :
    7/10 < calculate_hallucination_risk ("might possibly perhaps maybe likely " ++
      String.mk (List.flatten (List.replicate 100 ['w', ' '])))
      "one two three four five" (3/10) :=
  claim6_amended_high_risk _ _ (by decide) (by decide)

/-- C4: a request whose prompt is empty (or missing, in which case the
data.get default makes it empty) is rejected with the input-error envelope
and status 400, with an empty effect trace: no model call, no log entry,
no metric emission. -/
theorem claim4_empty_prompt_rejected (a : ChatArgs) (h : a.body = Except.ok "") :
    chat a = (ChatResponse.badRequest "prompt is required", 400, [])
    ∧ (chat a).2.2.filter isModelCall = []
    ∧ logEntriesOf (chat a).2.2 = []
    ∧ metricsEmitted (chat a).2.2 = [] := by
  have h1 : chat a = (ChatResponse.badRequest "prompt is required", 400, []) := by
    unfold chat
    rw [h]
    simp
  rw [h1]
  simp [logEntriesOf, metricsEmitted]

/-- Witness for C4 at a concrete run. -/
theorem claim4_witness :
    chat emptyArgs = (ChatResponse.badRequest "prompt is required", 400, [])
    ∧ (chat emptyArgs).2.2.filter isModelCall = []
    ∧ logEntriesOf (chat emptyArgs).2.2 = []
    ∧ metricsEmitted (chat emptyArgs).2.2 = [] :=
  claim4_empty_prompt_rejected emptyArgs rfl

/-- Tags of every submitted metric series are exactly the model, service and
environment tags; no series field depends on the request id. -/
theorem metricsSeriesOf_tags (md : MetricsData) :
    ∀ s ∈ metricsSeriesOf md,
      s.tags = ["model_name:" ++ md.model_name, "service:" ++ SERVICE_NAME,
        "env:" ++ ENVIRONMENT] := by
  intro s hs
  simp [metricsSeriesOf] at hs
  rcases hs with h | h | h | h | h <;> subst h <;> rfl

/-- C5 amended: every handled request either is the empty-prompt input
rejection, which emits no telemetry at all, or — on the success path and on
both error paths alike — returns its request id in the envelope and
delivers exactly one log entry carrying that same request id; the submitted
metric series carry only model/service/environment tags, so the request id
does not appear in the metric series. -/
theorem claim5_amended_request_id_correlation (a : ChatArgs) (hl : a.logsFail = false) :
    (((chat a).1 = ChatResponse.badRequest "prompt is required" ∧ (chat a).2.2 = [])
      ∨ (ridOf (chat a).1 = some a.request_id
         ∧ (logEntriesOf (chat a).2.2).map logEntryRid = [a.request_id]))
    ∧ (∀ md, Event.metricsEmit md ∈ (chat a).2.2 →
        ∀ s ∈ metricsSeriesOf md,
          s.tags = ["model_name:" ++ md.model_name, "service:" ++ SERVICE_NAME,
            "env:" ++ ENVIRONMENT]) := by
  refine ⟨?_, fun md _ => metricsSeriesOf_tags md⟩
  unfold chat chatError
  cases hb : a.body with
  | error e =>
    right
    cases hme : a.errMetricFail <;>
      simp [hb, hl, send_logs_to_datadog, ridOf, logEntriesOf, logEntryRid]
  | ok prompt =>
    by_cases hp : prompt = ""
    · left
      simp [hb, hp]
    · cases hg : a.gen with
      | error e =>
        right
        cases hme : a.errMetricFail <;>
          simp [hb, hp, hg, hl, send_logs_to_datadog, ridOf, logEntriesOf, logEntryRid]
      | ok tn =>
        right
        cases hm : a.metricsFail <;>
          simp [hb, hp, hg, hl, hm, send_metrics_to_datadog, send_logs_to_datadog,
            ridOf, logEntriesOf, logEntryRid]

/-- Witness for the amended C5 at a concrete successful run. -/
theorem claim5_witness :
    (((chat okArgs).1 = ChatResponse.badRequest "prompt is required"
        ∧ (chat okArgs).2.2 = [])
      ∨ (ridOf (chat okArgs).1 = some okArgs.request_id
         ∧ (logEntriesOf (chat okArgs).2.2).map logEntryRid = [okArgs.request_id]))
    ∧ (∀ md, Event.metricsEmit md ∈ (chat okArgs).2.2 →
        ∀ s ∈ metricsSeriesOf md,
          s.tags = ["model_name:" ++ md.model_name, "service:" ++ SERVICE_NAME,
            "env:" ++ ENVIRONMENT]) :=
  claim5_amended_request_id_correlation okArgs rfl

/-- C5 counterexample: in a concrete successful run the metrics sink does
receive series, but no string of the submitted payload contains the
request id, so the request id does not appear in the emitted metric
series as the claim states. -/
theorem claim5_counterexample :
    metricsEmitted (chat cexArgs).2.2 ≠ []
    ∧ ∀ md ∈ metricsEmitted (chat cexArgs).2.2,
        ((seriesStrings md).all fun s => !(isSubstr cexArgs.request_id.data s.data)) = true := by
  constructor
  · decide
  · decide

/-- C7: the caller-visible envelope and the status code are identical across
any two behaviours of the metrics sink, the log sink and the error-counter
submission; a sink failure never reaches the caller. -/
theorem claim7_sink_outcome_invisible (a : ChatArgs) (m₁ l₁ e₁ m₂ l₂ e₂ : Bool) :
    (chat { a with metricsFail := m₁, logsFail := l₁, errMetricFail := e₁ }).1 =
      (chat { a with metricsFail := m₂, logsFail := l₂, errMetricFail := e₂ }).1
    ∧ (chat { a with metricsFail := m₁, logsFail := l₁, errMetricFail := e₁ }).2.1 =
      (chat { a with metricsFail := m₂, logsFail := l₂, errMetricFail := e₂ }).2.1 := by
  unfold chat chatError
  cases hb : a.body with
  | error e => simp [hb]
  | ok prompt =>
    by_cases hp : prompt = ""
    · simp [hb, hp]
    · cases hg : a.gen with
      | error e => simp [hb, hp, hg]
      | ok tn => simp [hb, hp, hg]

/-- C8 amended: the envelope latency is the full request span rounded to two
decimals, the telemetry latency in both the metric series and the log entry
is exactly the generation span, the full span is at least the generation
span, and hence the envelope value is at least the telemetry latency minus
the rounding error 1/200 (it can fall short of the telemetry latency by up
to that amount, as the counterexample shows). -/
theorem claim8_amended_latency_contract (a : ChatArgs) (p t : String) (n : Nat)
    (hb : a.body = Except.ok p) (hp : p ≠ "") (hg : a.gen = Except.ok (t, n))
    (h1 : a.tStart ≤ a.tLlmStart) (h2 : a.tLlmStart ≤ a.tLlmEnd)
    (h3 : a.tLlmEnd ≤ a.tEnd) :
    envLatencyOf (chat a).1 = round2 ((a.tEnd - a.tStart) * 1000)
    ∧ (∀ md ∈ metricsEmitted (chat a).2.2,
        md.latency_ms = (a.tLlmEnd - a.tLlmStart) * 1000)
    ∧ (∀ ld, LogEntry.success ld ∈ logEntriesOf (chat a).2.2 →
        ld.latency_ms = (a.tLlmEnd - a.tLlmStart) * 1000)
    ∧ (a.tLlmEnd - a.tLlmStart) * 1000 ≤ (a.tEnd - a.tStart) * 1000
    ∧ (a.tLlmEnd - a.tLlmStart) * 1000 - 1/200 ≤ envLatencyOf (chat a).1 := by
  have hshape : envLatencyOf (chat a).1 = round2 ((a.tEnd - a.tStart) * 1000) := by
    unfold chat
    rw [hb]
    simp [hp, hg, envLatencyOf]
  have hfull : (a.tLlmEnd - a.tLlmStart) * 1000 ≤ (a.tEnd - a.tStart) * 1000 := by
    linarith [h1, h2, h3]
  have hround : (a.tEnd - a.tStart) * 1000 - 1/200
      ≤ round2 ((a.tEnd - a.tStart) * 1000) := by
    have hr := abs_sub_round (((a.tEnd - a.tStart) * 1000) * 100)
    rw [abs_le] at hr
    unfold round2
    rw [le_div_iff₀ (by norm_num : (0:ℚ) < 100)]
    linarith [hr.2]
  refine ⟨hshape, ?_, ?_, hfull, ?_⟩
  · intro md hmd
    revert hmd
    unfold chat
    rw [hb]
    cases hm : a.metricsFail <;> cases hlg : a.logsFail <;>
      simp [hp, hg, hm, hlg, send_metrics_to_datadog, send_logs_to_datadog,
        metricsEmitted] <;> intro h <;> subst h <;> rfl
  · intro ld hld
    revert hld
    unfold chat
    rw [hb]
    cases hm : a.metricsFail <;> cases hlg : a.logsFail <;>
      simp [hp, hg, hm, hlg, send_metrics_to_datadog, send_logs_to_datadog,
        logEntriesOf] <;> intro h <;> subst h <;> rfl
  · rw [hshape]
    linarith

unseal Rat.mul Rat.inv Rat.add Rat.sub in
/-- Witness for the amended C8 at a concrete run. -/
theorem claim8_witness :
    envLatencyOf (chat okArgs).1 = round2 ((okArgs.tEnd - okArgs.tStart) * 1000)
    ∧ (∀ md ∈ metricsEmitted (chat okArgs).2.2,
        md.latency_ms = (okArgs.tLlmEnd - okArgs.tLlmStart) * 1000)
    ∧ (∀ ld, LogEntry.success ld ∈ logEntriesOf (chat okArgs).2.2 →
        ld.latency_ms = (okArgs.tLlmEnd - okArgs.tLlmStart) * 1000)
    ∧ (okArgs.tLlmEnd - okArgs.tLlmStart) * 1000 ≤ (okArgs.tEnd - okArgs.tStart) * 1000
    ∧ (okArgs.tLlmEnd - okArgs.tLlmStart) * 1000 - 1/200 ≤ envLatencyOf (chat okArgs).1 :=
  claim8_amended_latency_contract okArgs "hi" "fine" 4 rfl (by decide) rfl
    (by decide) (by decide) (by decide)

unseal Rat.mul Rat.inv Rat.add Rat.sub in
/-- C8 counterexample: with a weakly monotone clock in which the generation
span equals the full span at 1.0149 ms, the telemetry latency is 1.0149 ms
while the envelope reports round(1.0149, 2) = 1.01 ms, strictly below the
telemetry latency, so the envelope latency is not always greater than or
equal to the telemetry latency. -/
theorem claim8_counterexample :
    (lateArgs.tStart ≤ lateArgs.tLlmStart ∧ lateArgs.tLlmStart ≤ lateArgs.tLlmEnd
      ∧ lateArgs.tLlmEnd ≤ lateArgs.tEnd)
    ∧ lateMd ∈ metricsEmitted (chat lateArgs).2.2
    ∧ lateMd.latency_ms = (lateArgs.tLlmEnd - lateArgs.tLlmStart) * 1000
    ∧ envLatencyOf (chat lateArgs).1 < lateMd.latency_ms := by
  refine ⟨by decide, by decide, by decide, by decide⟩

/-- C10: a request whose body extraction raises (absent body, malformed
JSON, or non-object JSON) is answered with the error envelope carrying the
error text and the request id generated before parsing, with status 500
rather than 400, and error telemetry is emitted: an error log entry with
that request id and the error-counter metric; no model call is made. -/
theorem claim10_parse_error_envelope (a : ChatArgs) (e : String)
    (hb : a.body = Except.error e) (hl : a.logsFail = false)
    (hm : a.errMetricFail = false) :
    (chat a).1 = ChatResponse.serverError e a.request_id
    ∧ (chat a).2.1 = 500
    ∧ (chat a).2.2 = [Event.logsEmit (LogEntry.failure
        ⟨a.request_id, e, (a.tErr - a.tStart) * 1000, "error"⟩), Event.errorMetricEmit]
    ∧ (chat a).2.2.filter isModelCall = [] := by
  unfold chat chatError
  rw [hb]
  simp [send_logs_to_datadog, hl, hm, isModelCall]

/-- Witness for C10 at a concrete run. -/
theorem claim10_witness :
    (chat badBodyArgs).1 = ChatResponse.serverError
      "400 Bad Request: failed to decode JSON object" badBodyArgs.request_id
    ∧ (chat badBodyArgs).2.1 = 500
    ∧ (chat badBodyArgs).2.2 = [Event.logsEmit (LogEntry.failure
        ⟨badBodyArgs.request_id, "400 Bad Request: failed to decode JSON object",
         (badBodyArgs.tErr - badBodyArgs.tStart) * 1000, "error"⟩), Event.errorMetricEmit]
    ∧ (chat badBodyArgs).2.2.filter isModelCall = [] :=
  claim10_parse_error_envelope badBodyArgs
    "400 Bad Request: failed to decode JSON object" rfl rfl rfl

/-- The digest always has sixteen characters: its list of characters is
built from a fixed 64-character spine truncated at 16. -/
theorem hash_data_len (p : String) : (hash_prompt p).data.length = 16 := rfl

/-- Every hexadecimal character produced by hexChar belongs to the
hexadecimal alphabet. -/
theorem hexChar_mem (n : Nat) : hexChar n ∈ hexDigitChars := by
  have h : n % 16 < 16 := Nat.mod_lt _ (by norm_num)
  have hall : ∀ m, m < 16 → hexDigitChars.getD m '0' ∈ hexDigitChars := by decide
  exact hall _ h

/-- Every character of a byte-wise hex rendering belongs to the hexadecimal
alphabet. -/
theorem mem_byteHex_flatten {c : Char} (bs : List Nat)
    (hc : c ∈ (bs.map byteHex).flatten) : c ∈ hexDigitChars := by
  induction bs with
  | nil => simp at hc
  | cons b t ih =>
    rw [List.map_cons, List.flatten_cons, List.mem_append] at hc
    rcases hc with hc | hc
    · rw [byteHex, List.mem_cons, List.mem_singleton] at hc
      rcases hc with hc | hc <;> subst hc <;> exact hexChar_mem _
    · exact ih hc

/-- Every character of a truncated digest is a lowercase hexadecimal
digit. -/
theorem hash_chars_hex (p : String) : ∀ c ∈ (hash_prompt p).data, c ∈ hexDigitChars := by
  intro c hc
  have hc' : c ∈ (sha256HexChars (utf8Bytes p)).take 16 := hc
  exact mem_byteHex_flatten _ (List.take_subset 16 _ hc')

/-- charIdx separates distinct characters of the hexadecimal alphabet. -/
theorem charIdx_inj :
    ∀ c ∈ hexDigitChars, ∀ d ∈ hexDigitChars, charIdx c = charIdx d → c = d := by
  decide

/-- C9 counterexample: hash_prompt maps the infinitely many prompts into
the finitely many 16-character hexadecimal strings, so two distinct prompts
share a digest and the claimed equivalence of digest equality and prompt
equality fails. -/
theorem claim9_counterexample :
    ¬ ∀ p1 p2 : String, hash_prompt p1 = hash_prompt p2 → p1 = p2 := by
  intro hinj
  obtain ⟨x, y, hxy, hfeq⟩ := Finite.exists_ne_map_eq_of_infinite hashFin
  apply hxy
  apply hinj
  apply String.ext
  apply List.ext_getElem
  · rw [hash_data_len x, hash_data_len y]
  · intro n h₁ h₂
    have hn16 : n < 16 := by
      rw [hash_data_len x] at h₁
      exact h₁
    have hfn := congrFun hfeq ⟨n, hn16⟩
    have hx : (hash_prompt x).data.getD n '0' = (hash_prompt x).data[n] :=
      List.getD_eq_getElem _ _ h₁
    have hy : (hash_prompt y).data.getD n '0' = (hash_prompt y).data[n] :=
      List.getD_eq_getElem _ _ h₂
    have hcx : (hash_prompt x).data[n] ∈ hexDigitChars :=
      hash_chars_hex x _ (List.getElem_mem h₁)
    have hcy : (hash_prompt y).data[n] ∈ hexDigitChars :=
      hash_chars_hex y _ (List.getElem_mem h₂)
    apply charIdx_inj _ hcx _ hcy
    unfold hashFin at hfn
    rw [hx, hy] at hfn
    exact hfn

/-- C9 amended: hash_prompt is deterministic (equal prompts give equal
digests, and the function has no other inputs or state), its output always
has exactly 16 characters, all of them lowercase hexadecimal digits; the
converse implication from digest equality to prompt equality cannot hold
for all prompt pairs. -/
theorem claim9_amended_hash_contract :
    (∀ p q : String, p = q → hash_prompt p = hash_prompt q)
    ∧ (∀ p : String, (hash_prompt p).length = 16)
    ∧ (∀ p : String, ∀ c ∈ (hash_prompt p).data, c ∈ hexDigitChars) :=
  ⟨fun _ _ h => congrArg hash_prompt h, fun _ => rfl, hash_chars_hex⟩

/-- Witness for the amended C9 at a concrete prompt. -/
theorem claim9_witness :
    hash_prompt "abc" = hash_prompt "abc" ∧ (hash_prompt "abc").length = 16 :=
  ⟨claim9_amended_hash_contract.1 "abc" "abc" rfl,
   claim9_amended_hash_contract.2.1 "abc"⟩

end LLMObs
